import Mathlib

/-
Verification development for the Proof-of-AI-Algorithm blockchain simulator
(files ai_algo_manager.py and ai_algo_engine.py).

Modelling conventions
* Python floats are modelled as rationals; every arithmetic
  operation appearing in the claims (addition, multiplication, max) is exact
  on the values the program draws, so no rounding behaviour is relevant.
* Calls to the random module are modelled by explicit parameters: the value
  drawn by random.uniform(a, b), random.getrandbits(k) or random.randint(a, b)
  is passed in as an argument, with interval bounds appearing as hypotheses
  where a claim depends on them.
* Calls to self.log_message(text, color) are modelled as emitted LogEvent
  values, one constructor per call site, carrying the interpolated payload
  values; the color tag of the call site is recovered by LogEvent.color.
* Functions that in Python mutate self are modelled as functions from the
  state to the new state, paired with their return value and emitted events.
-/

namespace PoAIA

/-- Event emitted through manager.log_message; one constructor per call
site in the two core source files (GUI-only call sites are omitted). -/
inductive LogEvent where
  /-- ai_algo_engine line 35: engine started banner. -/
  | engineStarted
  /-- ai_algo_engine line 42: new block cycle header with prospective height. -/
  | cycleStartHeader (prospectiveHeight : ℤ)
  /-- ai_algo_engine line 43: difficulty announcement for the cycle. -/
  | difficultySet (difficulty : ℚ)
  /-- ai_algo_engine line 84: local AI win message. -/
  | localWin
  /-- ai_algo_engine line 89: network loss message. -/
  | networkLoss
  /-- ai_algo_engine line 93: competition cancelled due to engine stop. -/
  | competitionCancelled
  /-- ai_algo_engine line 96: critical competition error with message. -/
  | competitionError (msg : String)
  /-- ai_algo_engine line 54: block solving failed or engine stopped. -/
  | solveFailedOrStopped
  /-- ai_algo_engine line 57: block cycle complete, waiting for next mint. -/
  | cycleComplete
  /-- ai_algo_engine line 139: engine received STOP command. -/
  | stopCommand
  /-- ai_algo_manager line 63: API key field is empty. -/
  | apiKeyEmpty
  /-- ai_algo_manager line 73: API key loaded. -/
  | apiKeyLoaded
  /-- ai_algo_manager line 131: block minted with new height. -/
  | blockMinted (newHeight : ℤ)
  /-- ai_algo_manager line 132: winning node and difficulty. -/
  | nodeWon (nodeId : String) (difficulty : ℚ)
  /-- ai_algo_manager line 133: base reward and luck modifier breakdown. -/
  | rewardBreakdown (base luck : ℚ)
  /-- ai_algo_manager line 134: final reward allocated and new balance. -/
  | finalRewardAllocated (reward balance : ℚ)
  /-- ai_algo_manager line 149: stamped metadata line. -/
  | stampedMetadata
  /-- ai_algo_manager line 150: simulated file reference line. -/
  | fileReference
  /-- ai_algo_manager line 193: cannot start, no API key loaded. -/
  | cannotStartNoKey
  /-- ai_algo_manager line 197: algorithm already running. -/
  | alreadyRunning
  /-- ai_algo_manager line 201: algorithm started banner. -/
  | algorithmStarted
deriving Repr, DecidableEq

/-- Color tag passed to log_message at each call site (default is teal). -/
def LogEvent.color : LogEvent → String
  | .engineStarted => "teal"
  | .cycleStartHeader _ => "gold"
  | .difficultySet _ => "gold"
  | .localWin => "teal"
  | .networkLoss => "red"
  | .competitionCancelled => "red"
  | .competitionError _ => "red"
  | .solveFailedOrStopped => "red"
  | .cycleComplete => "gold"
  | .stopCommand => "red"
  | .apiKeyEmpty => "red"
  | .apiKeyLoaded => "teal"
  | .blockMinted _ => "teal"
  | .nodeWon _ _ => "gold"
  | .rewardBreakdown _ _ => "gold"
  | .finalRewardAllocated _ _ => "teal"
  | .stampedMetadata => "teal"
  | .fileReference => "teal"
  | .cannotStartNoKey => "red"
  | .alreadyRunning => "gold"
  | .algorithmStarted => "teal"

/-- The mutable fields of AIAlgoManager (ai_algo_manager lines 29-46) that
the core logic reads or writes.  The log_entries list is modelled by the
LogEvent streams returned by each operation; competing_nodes is written
nowhere and read nowhere, so it is omitted. -/
structure ManagerState where
  api_key : String
  is_running : Bool
  block_height : ℤ
  peer_count : ℤ
  wallet_address : String
  balance : ℚ
  current_difficulty : ℚ
  last_block_hash : String
  node_id : String
deriving Repr, DecidableEq

/-- AIAlgoManager.BLOCK_REWARD (line 24). -/
def BLOCK_REWARD : ℚ := 5

/-- AIAlgoManager.LUCK_FACTOR_MAX (line 27). -/
def LUCK_FACTOR_MAX : ℚ := 3 / 20

/-- AIAlgoEngine.BASE_DIFFICULTY (line 19). -/
def BASE_DIFFICULTY : ℚ := 100

/-- AIAlgoEngine.DIFFICULTY_SWIRL_RANGE (line 20). -/
def DIFFICULTY_SWIRL_RANGE : ℚ := 50

/-- AIAlgoEngine.MIN_PEERS (line 24). -/
def MIN_PEERS : ℤ := 10

/-- AIAlgoEngine.MAX_PEERS (line 23). -/
def MAX_PEERS : ℤ := 30

/-- The manager state built by AIAlgoManager.__init__ (lines 29-46), with the
randomly generated wallet address suffix and node id number as parameters. -/
def initial_manager_state (walletSuffix : String) (nodeNum : ℤ) : ManagerState :=
  { api_key := ""
    is_running := false
    block_height := 12345
    peer_count := 12
    wallet_address := "AIA-QTL-" ++ walletSuffix
    balance := 0
    current_difficulty := 0
    last_block_hash := "0x00000000000000000000000000000000"
    node_id := "AIAlgoNode-" ++ toString nodeNum }

/-- AIAlgoManager.set_api_key (lines 60-74).  Python tests the key with
`if not key`, which for a string argument is the empty-string test.  Returns
the boolean result, the new state and the emitted events. -/
def set_api_key (s : ManagerState) (key : String) :
    Bool × ManagerState × List LogEvent :=
  if key = "" then
    (false, s, [LogEvent.apiKeyEmpty])
  else
    (true, { s with api_key := key }, [LogEvent.apiKeyLoaded])

/-- AIAlgoManager.start_algorithm (lines 190-202).  Python tests the stored
key with `if not self.api_key` (empty-string test). -/
def start_algorithm (s : ManagerState) : Bool × ManagerState × List LogEvent :=
  if s.api_key = "" then
    (false, s, [LogEvent.cannotStartNoKey])
  else if s.is_running then
    (true, s, [LogEvent.alreadyRunning])
  else
    (true, { s with is_running := true }, [LogEvent.algorithmStarted])

/-- AIAlgoManager.stop_algorithm (lines 204-210). -/
def stop_algorithm (s : ManagerState) : Bool × ManagerState :=
  if s.is_running then (true, { s with is_running := false }) else (false, s)

/-- The value rendered by the Python format specifier applied in
f-string position for a 64-bit value under format code X: the base-16 digits
of the number, most significant first, no leading zeros, upper-case letters.
Nat.toDigits 16 produces exactly the lower-case variant of that digit
string, so mapping Char.toUpper over it reproduces the Python rendering. -/
def pyFormatUpperHex (n : ℕ) : String :=
  ⟨(Nat.toDigits 16 n).map Char.toUpper⟩

/-- The return value of AIAlgoManager.solve_block_encryption (lines 76-107):
the placeholder simulation sleeps for a drawn latency and then returns the
string built at line 104 from a drawn 64-bit value.  The drawn value is the
parameter; the latency affects timing only and is modelled by the race
events of the engine. -/
def solve_block_encryption (bits : ℕ) : String :=
  "AI_Solution_Proof_" ++ pyFormatUpperHex bits

/-- Exactly k base-16 digits of n, most significant first, using the same
digit characters as Python (Nat.digitChar agrees with Python hex digits on
values below 16).  For n below 16 ^ k this is precisely what the Python
format code 0kx renders, the hex digits of n left-padded with zeros to
width k. -/
def hexDigitsFixed : ℕ → ℕ → List Char
  | 0, _ => []
  | k + 1, n => hexDigitsFixed k (n / 16) ++ [Nat.digitChar (n % 16)]

/-- The string assigned to last_block_hash at ai_algo_manager line 129:
0x followed by the 64 hex digits of a drawn 256-bit value (the format code
is 064x and the drawn value is below 2 ^ 256, so the rendering is exactly
64 digits). -/
def new_block_hash (hashBits : ℕ) : String :=
  "0x" ++ ⟨hexDigitsFixed 64 hashBits⟩

/-- AIAlgoManager.distribute_reward (lines 109-137).  The drawn luck
modifier and the drawn 256-bit hash value are parameters.  Returns the new
state, the allocated reward and the emitted events (including those of
_stamp_block_metadata, lines 139-151, which only logs). -/
def distribute_reward (s : ManagerState) (winner_node_id : String)
    (difficulty luck_modifier : ℚ) (hashBits : ℕ) :
    ManagerState × ℚ × List LogEvent :=
  let base_reward_amount := BLOCK_REWARD
  let final_reward := base_reward_amount * (1 + luck_modifier)
  let s1 : ManagerState :=
    { s with
      balance := s.balance + final_reward
      block_height := s.block_height + 1
      current_difficulty := difficulty
      last_block_hash := new_block_hash hashBits }
  (s1, final_reward,
    [LogEvent.blockMinted s1.block_height,
     LogEvent.nodeWon winner_node_id difficulty,
     LogEvent.rewardBreakdown base_reward_amount luck_modifier,
     LogEvent.finalRewardAllocated final_reward s1.balance,
     LogEvent.stampedMetadata,
     LogEvent.fileReference])

/-- AIAlgoEngine._calculate_dynamic_difficulty (lines 111-128), with the
drawn swirl value as a parameter. -/
def calculate_dynamic_difficulty (current_difficulty random_factor : ℚ) : ℚ :=
  let current := if current_difficulty > 0 then current_difficulty else BASE_DIFFICULTY
  let difficulty := current + random_factor
  max difficulty 50

/-- Python awaitable objects relevant to the race in
AIAlgoEngine._run_ai_competition (lines 60-97).  Calling the two async
methods at lines 70 and 73 produces two coroutine objects; asyncio.wait
wraps every awaitable it receives with ensure_future, producing a fresh
Task object per coroutine, and its done and pending sets contain those
wrapper Task objects.  Object identity (Python `in` on a set of tasks uses
default identity equality) is modelled by decidable equality on this type:
a wrapper task is never equal to the coroutine it wraps. -/
inductive PyAwaitable where
  /-- The coroutine object returned by manager.solve_block_encryption(difficulty). -/
  | solveCoro
  /-- The coroutine object returned by self._simulate_p2p_consensus(difficulty). -/
  | p2pCoro
  /-- The Task object created by ensure_future inside asyncio.wait around a coroutine. -/
  | wrapperTask (inner : PyAwaitable)
deriving Repr, DecidableEq

/-- The scheduling outcome of one race, i.e. which event makes the awaited
asyncio.wait call return (or raise) first.  This is the oracle input that
replaces real time in the model. -/
inductive RaceEvent where
  /-- The wrapper task of the solve coroutine completes with a value first. -/
  | localFirst
  /-- The wrapper task of the consensus coroutine completes with a value first. -/
  | p2pFirst
  /-- Both wrapper tasks are complete when the wait call returns. -/
  | bothFirst
  /-- One of the two operations raises an exception; its wrapper task
  completes first, holding that exception (asyncio.wait never raises the
  exceptions of the tasks it waits on; they stay stored in the tasks). -/
  | opError (inLocal : Bool) (msg : String)
  /-- The task running start_engine is cancelled while awaiting the wait
  call, so CancelledError is raised at the await site. -/
  | externalCancel
  /-- The asyncio.wait call itself raises an ordinary exception before
  completing (on Python 3.11 and later it raises TypeError immediately
  because bare coroutines are passed). -/
  | waitError (msg : String)
deriving Repr, DecidableEq

/-- The done set returned by asyncio.wait with return_when FIRST_COMPLETED
for each normally returning race event: it contains the wrapper tasks that
are complete, never the original coroutine objects (events on which the
wait call does not return normally give no set). -/
def asyncio_wait_done : RaceEvent → List PyAwaitable
  | .localFirst => [.wrapperTask .solveCoro]
  | .p2pFirst => [.wrapperTask .p2pCoro]
  | .bothFirst => [.wrapperTask .solveCoro, .wrapperTask .p2pCoro]
  | .opError true _ => [.wrapperTask .solveCoro]
  | .opError false _ => [.wrapperTask .p2pCoro]
  | .externalCancel => []
  | .waitError _ => []

/-- Observable behaviour of one call to AIAlgoEngine._run_ai_competition:
which awaitables were handed to asyncio.wait, whether FIRST_COMPLETED was
requested, which awaitables the function requested cancellation on, the
value returned to start_engine (none models the Python value None, reached
by falling off the end of the function), and the events logged by the
function itself (events logged inside the two operations are emitted
concurrently by those coroutines and are not part of this record). -/
structure RaceRun where
  waited_on : List PyAwaitable
  first_completed : Bool
  cancel_requested : List PyAwaitable
  result : Option String
  logs : List LogEvent
deriving Repr, DecidableEq

/-- AIAlgoEngine._run_ai_competition (lines 60-97), with the race event and
the 64-bit value the solve operation would draw as parameters.  The two
membership tests at lines 82 and 88 test the coroutine objects created at
lines 70 and 73 against the done set of asyncio.wait, which holds the
wrapper tasks; the function never calls cancel on any task (the pending
set is discarded). -/
def run_ai_competition (ev : RaceEvent) (solveBits : ℕ) : RaceRun :=
  let outcome : Option String × List LogEvent :=
    match ev with
    | .externalCancel => (some "", [LogEvent.competitionCancelled])
    | .waitError msg => (some "", [LogEvent.competitionError msg])
    | ev =>
        let results := asyncio_wait_done ev
        if PyAwaitable.solveCoro ∈ results then
          (some (solve_block_encryption solveBits), [LogEvent.localWin])
        else if PyAwaitable.p2pCoro ∈ results then
          (some "", [LogEvent.networkLoss])
        else
          (none, [])
  { waited_on := [.solveCoro, .p2pCoro]
    first_completed := true
    cancel_requested := []
    result := outcome.1
    logs := outcome.2 }

/-- Python truthiness of the value bound to winning_proof at
ai_algo_engine line 46: None and the empty string are falsy, any other
string is truthy. -/
def pyTruthy : Option String → Bool
  | none => false
  | some s => !(s = "")

/-- Combined state of the engine and its manager: the manager state plus
AIAlgoEngine.running (line 28).  stop_engine (lines 135-143) sets running
to false and then cancels the main task. -/
structure SysState where
  mgr : ManagerState
  running : Bool
deriving Repr, DecidableEq

/-- Environment of one iteration of the start_engine loop: all values drawn
by the random module during the iteration, the race event, and whether an
external stop request lands between the race returning and the running
check at line 49 (stopAfterRace) or during the inter-block sleep
(stopDuringSleep).  A stop request that lands during the race appears as
the externalCancel race event; stop_engine sets running to false before
cancelling the task, so that event forces running to be false at the
line 49 check. -/
structure CycleEnv where
  swirl : ℚ
  peers : ℤ
  raceEvent : RaceEvent
  solveBits : ℕ
  stopAfterRace : Bool
  luck : ℚ
  hashBits : ℕ
  stopDuringSleep : Bool
deriving Repr, DecidableEq

/-- Actions of one loop iteration that the claims talk about. -/
inductive CycleAction where
  /-- The iteration ran the race (await at line 46). -/
  | race (ev : RaceEvent)
  /-- The iteration called distribute_reward, allocating this amount. -/
  | reward (amount : ℚ)
  /-- The iteration reached the inter-block await asyncio.sleep at line 58. -/
  | interBlockSleep
deriving Repr, DecidableEq

/-- One iteration of the while loop of AIAlgoEngine.start_engine
(lines 37-58), assuming the loop guard at line 37 was just observed true.
Returns the new combined state, the events logged by the iteration (in
order, omitting events emitted concurrently inside the two raced
coroutines) and the actions taken.  Line 58 is reached unconditionally
within an iteration, so interBlockSleep is always in the action list; the
CancelledError raised in the race by a stop request is swallowed at
line 92-94, after which execution proceeds normally to the sleep. -/
def run_cycle (s : SysState) (env : CycleEnv) :
    SysState × List LogEvent × List CycleAction :=
  let difficulty := calculate_dynamic_difficulty s.mgr.current_difficulty env.swirl
  let mgr1 : ManagerState := { s.mgr with peer_count := env.peers }
  let headerLogs : List LogEvent :=
    [LogEvent.cycleStartHeader (mgr1.block_height + 1), LogEvent.difficultySet difficulty]
  let raceRun := run_ai_competition env.raceEvent env.solveBits
  let running1 := if env.raceEvent = RaceEvent.externalCancel then false else s.running
  let running2 := if env.stopAfterRace then false else running1
  if pyTruthy raceRun.result && running2 then
    let rewardOut := distribute_reward mgr1 mgr1.node_id difficulty env.luck env.hashBits
    let running3 := if env.stopDuringSleep then false else running2
    ({ mgr := rewardOut.1, running := running3 },
     headerLogs ++ raceRun.logs ++ rewardOut.2.2 ++ [LogEvent.cycleComplete],
     [CycleAction.race env.raceEvent, CycleAction.reward rewardOut.2.1,
      CycleAction.interBlockSleep])
  else
    let running3 := if env.stopDuringSleep then false else running2
    ({ mgr := mgr1, running := running3 },
     headerLogs ++ raceRun.logs ++
       [LogEvent.solveFailedOrStopped, LogEvent.cycleComplete],
     [CycleAction.race env.raceEvent, CycleAction.interBlockSleep])

/-- The while loop of start_engine run against a finite list of cycle
environments: each iteration first checks the loop guard (running), then
consumes one environment.  Returns the final state and the concatenated
logs and actions of the executed iterations. -/
def run_engine (s : SysState) : List CycleEnv → SysState × List LogEvent × List CycleAction
  | [] => (s, [], [])
  | env :: rest =>
      if s.running then
        let step := run_cycle s env
        let tail := run_engine step.1 rest
        (tail.1, step.2.1 ++ tail.2.1, step.2.2 ++ tail.2.2)
      else
        (s, [], [])

/-- Lower-case hexadecimal digit characters (0 through 9 and a through f),
the alphabet of the Python format codes x and 064x. -/
def isLowerHexDigit (c : Char) : Bool :=
  (('0' ≤ c) && (c ≤ '9')) || (('a' ≤ c) && (c ≤ 'f'))

/-- A concrete manager state as built at process start, used to instantiate
universally quantified theorems at explicit inputs. -/
def mgr0 : ManagerState := initial_manager_state "0A1B2C3D4E5F6071" 4821

/-- Concrete combined state with the engine loop guard observed true. -/
def sys0 : SysState := { mgr := mgr0, running := true }

/-- Concrete cycle environment in which the engine task is cancelled while
awaiting the race. -/
def envCancel : CycleEnv :=
  { swirl := 0, peers := 12, raceEvent := RaceEvent.externalCancel, solveBits := 0
    stopAfterRace := false, luck := 0, hashBits := 0, stopDuringSleep := false }

/-- Concrete cycle environment in which the consensus operation completes
first. -/
def envLoss : CycleEnv :=
  { swirl := 0, peers := 12, raceEvent := RaceEvent.p2pFirst, solveBits := 5
    stopAfterRace := false, luck := 0, hashBits := 0, stopDuringSleep := false }

/-- hexDigitsFixed always yields exactly its requested width. -/
theorem hexDigitsFixed_length (k : ℕ) : ∀ n, (hexDigitsFixed k n).length = k := by
  induction k with
  | zero => intro n; rfl
  | succ k ih => intro n; simp [hexDigitsFixed, ih]

/-- Nat.digitChar maps values below 16 into the lower-case hex alphabet. -/
theorem digitChar_isLowerHexDigit (d : ℕ) (h : d < 16) :
    isLowerHexDigit (Nat.digitChar d) = true := by
  interval_cases d <;> decide

/-- Every character produced by hexDigitsFixed is a lower-case hex digit. -/
theorem hexDigitsFixed_isLowerHexDigit (k : ℕ) :
    ∀ n, ∀ c ∈ hexDigitsFixed k n, isLowerHexDigit c = true := by
  induction k with
  | zero => intro n c hc; simp [hexDigitsFixed] at hc
  | succ k ih =>
      intro n c hc
      simp only [hexDigitsFixed, List.mem_append, List.mem_singleton] at hc
      rcases hc with hc | hc
      · exact ih _ c hc
      · subst hc
        exact digitChar_isLowerHexDigit _ (Nat.mod_lt _ (by norm_num))

/-- The race returns the Python value None when the consensus wrapper task
completes first: the done set holds the wrapper task, not the coroutine
object the code tests for. -/
theorem race_result_p2pFirst (bits : ℕ) :
    (run_ai_competition RaceEvent.p2pFirst bits).result = none := rfl

/-- The race returns None when the solve wrapper task completes first. -/
theorem race_result_localFirst (bits : ℕ) :
    (run_ai_competition RaceEvent.localFirst bits).result = none := rfl

/-- The race logs its cancellation message and returns the empty string
when the engine task is cancelled at the await site. -/
theorem race_on_cancel (bits : ℕ) :
    (run_ai_competition RaceEvent.externalCancel bits).result = some "" ∧
    (run_ai_competition RaceEvent.externalCancel bits).logs =
      [LogEvent.competitionCancelled] := ⟨rfl, rfl⟩

/-- The guard value at ai_algo_engine line 49 is false for None. -/
theorem pyTruthy_none : pyTruthy none = false := rfl

/-- The guard value at ai_algo_engine line 49 is false for the empty string. -/
theorem pyTruthy_some_empty : pyTruthy (some "") = false := rfl

/-- Claim C2: the dynamic difficulty computation returns
max(base + delta, 50.0), where base is the previous difficulty when
positive and 100.0 otherwise and delta is the drawn swirl value in
[-50, 50]; in particular the result is never below 50. -/
theorem claim_C2_next_difficulty (prev swirl : ℚ)
    (h : -DIFFICULTY_SWIRL_RANGE ≤ swirl ∧ swirl ≤ DIFFICULTY_SWIRL_RANGE) :
    calculate_dynamic_difficulty prev swirl
        = max ((if prev > 0 then prev else BASE_DIFFICULTY) + swirl) 50 ∧
    50 ≤ calculate_dynamic_difficulty prev swirl := by
  refine ⟨rfl, ?_⟩
  unfold calculate_dynamic_difficulty
  exact le_max_right _ _

/-- Witness for claim C2 at previous difficulty 0 and swirl 1/2. -/
theorem claim_C2_witness :
    ((-DIFFICULTY_SWIRL_RANGE ≤ (1/2 : ℚ) ∧ (1/2 : ℚ) ≤ DIFFICULTY_SWIRL_RANGE) ∧
      (calculate_dynamic_difficulty 0 (1/2)
          = max ((if (0 : ℚ) > 0 then (0 : ℚ) else BASE_DIFFICULTY) + 1/2) 50 ∧
       50 ≤ calculate_dynamic_difficulty 0 (1/2))) :=
  ⟨⟨by norm_num [DIFFICULTY_SWIRL_RANGE], by norm_num [DIFFICULTY_SWIRL_RANGE]⟩,
   claim_C2_next_difficulty 0 (1/2)
     ⟨by norm_num [DIFFICULTY_SWIRL_RANGE], by norm_num [DIFFICULTY_SWIRL_RANGE]⟩⟩

/-- Claim C7: the allocated reward equals 5.0 * (1 + luck) for a drawn luck
value in [-0.15, 0.15], independent of the difficulty argument, hence lies
in [4.25, 5.75]. -/
theorem claim_C7_reward_bounds (s : ManagerState) (wid : String)
    (difficulty luck : ℚ) (hashBits : ℕ)
    (h1 : -LUCK_FACTOR_MAX ≤ luck) (h2 : luck ≤ LUCK_FACTOR_MAX) :
    (distribute_reward s wid difficulty luck hashBits).2.1
        = BLOCK_REWARD * (1 + luck) ∧
    (17 : ℚ) / 4 ≤ (distribute_reward s wid difficulty luck hashBits).2.1 ∧
    (distribute_reward s wid difficulty luck hashBits).2.1 ≤ (23 : ℚ) / 4 := by
  have hval : (distribute_reward s wid difficulty luck hashBits).2.1
      = BLOCK_REWARD * (1 + luck) := rfl
  rw [hval]
  norm_num [BLOCK_REWARD, LUCK_FACTOR_MAX] at h1 h2 ⊢
  constructor <;> nlinarith

/-- Witness for claim C7 at luck 1/10. -/
theorem claim_C7_witness :
    ((-LUCK_FACTOR_MAX ≤ (1/10 : ℚ)) ∧ ((1/10 : ℚ) ≤ LUCK_FACTOR_MAX) ∧
      ((distribute_reward mgr0 "w" 100 (1/10) 0).2.1 = BLOCK_REWARD * (1 + 1/10) ∧
       (17 : ℚ) / 4 ≤ (distribute_reward mgr0 "w" 100 (1/10) 0).2.1 ∧
       (distribute_reward mgr0 "w" 100 (1/10) 0).2.1 ≤ (23 : ℚ) / 4)) :=
  ⟨by norm_num [LUCK_FACTOR_MAX], by norm_num [LUCK_FACTOR_MAX],
   claim_C7_reward_bounds mgr0 "w" 100 (1/10) 0
     (by norm_num [LUCK_FACTOR_MAX]) (by norm_num [LUCK_FACTOR_MAX])⟩

/-- Claim C9: configuring the credential with an empty key returns false,
leaves the stored key unchanged and emits a red error notification; a
non-empty key is stored and true is returned with no further validation;
starting the algorithm with no credential loaded returns false and the
running flag stays false. -/
theorem claim_C9_credential_gate (s : ManagerState) (key : String)
    (hkey : key ≠ "") (hnokey : s.api_key = "") (hrun : s.is_running = false) :
    set_api_key s "" = (false, s, [LogEvent.apiKeyEmpty]) ∧
    LogEvent.apiKeyEmpty.color = "red" ∧
    set_api_key s key = (true, { s with api_key := key }, [LogEvent.apiKeyLoaded]) ∧
    (start_algorithm s).1 = false ∧
    (start_algorithm s).2.1 = s ∧
    ((start_algorithm s).2.1).is_running = false := by
  refine ⟨rfl, rfl, ?_, ?_, ?_, ?_⟩
  · simp [set_api_key, hkey]
  · simp [start_algorithm, hnokey]
  · simp [start_algorithm, hnokey]
  · simp [start_algorithm, hnokey, hrun]

/-- Witness for claim C9 on the freshly initialised manager state and the
key k. -/
theorem claim_C9_witness :
    (("k" : String) ≠ "" ∧ mgr0.api_key = "" ∧ mgr0.is_running = false) ∧
    (set_api_key mgr0 "" = (false, mgr0, [LogEvent.apiKeyEmpty]) ∧
     LogEvent.apiKeyEmpty.color = "red" ∧
     set_api_key mgr0 "k" = (true, { mgr0 with api_key := "k" }, [LogEvent.apiKeyLoaded]) ∧
     (start_algorithm mgr0).1 = false ∧
     (start_algorithm mgr0).2.1 = mgr0 ∧
     ((start_algorithm mgr0).2.1).is_running = false) :=
  ⟨⟨by decide, rfl, rfl⟩,
   claim_C9_credential_gate mgr0 "k" (by decide) rfl rfl⟩

/-- Claim C1: the reward allocation, as one state transition, increases
balance by the computed reward, increments block height by exactly 1, sets
the current difficulty to the difficulty of the won race, and replaces the
last block hash with the rendering of a freshly drawn 256-bit value as 0x
followed by 64 lower-case hex digits; every other state field is
unchanged. -/
theorem claim_C1_reward_allocation (s : ManagerState) (wid : String)
    (difficulty luck : ℚ) (hashBits : ℕ) (hbits : hashBits < 2 ^ 256) :
    (distribute_reward s wid difficulty luck hashBits).1.balance
        = s.balance + (distribute_reward s wid difficulty luck hashBits).2.1 ∧
    (distribute_reward s wid difficulty luck hashBits).1.block_height
        = s.block_height + 1 ∧
    (distribute_reward s wid difficulty luck hashBits).1.current_difficulty
        = difficulty ∧
    (distribute_reward s wid difficulty luck hashBits).1.last_block_hash
        = new_block_hash hashBits ∧
    ((distribute_reward s wid difficulty luck hashBits).1.last_block_hash).length = 66 ∧
    (∀ c ∈ hexDigitsFixed 64 hashBits, isLowerHexDigit c = true) ∧
    (distribute_reward s wid difficulty luck hashBits).1.api_key = s.api_key ∧
    (distribute_reward s wid difficulty luck hashBits).1.is_running = s.is_running ∧
    (distribute_reward s wid difficulty luck hashBits).1.peer_count = s.peer_count ∧
    (distribute_reward s wid difficulty luck hashBits).1.wallet_address = s.wallet_address ∧
    (distribute_reward s wid difficulty luck hashBits).1.node_id = s.node_id := by
  refine ⟨rfl, rfl, rfl, rfl, ?_, hexDigitsFixed_isLowerHexDigit 64 hashBits,
    rfl, rfl, rfl, rfl, rfl⟩
  show (new_block_hash hashBits).length = 66
  have h1 : (new_block_hash hashBits).length
      = ("0x" : String).length + (hexDigitsFixed 64 hashBits).length := by
    simpa [new_block_hash] using
      String.length_append "0x" ⟨hexDigitsFixed 64 hashBits⟩
  rw [h1, hexDigitsFixed_length]
  rfl

/-- Witness for claim C1 on the freshly initialised manager state with
drawn hash value 3. -/
theorem claim_C1_witness :
    ((3 : ℕ) < 2 ^ 256) ∧
    ((distribute_reward mgr0 "w" 100 (1/10) 3).1.balance
        = mgr0.balance + (distribute_reward mgr0 "w" 100 (1/10) 3).2.1 ∧
     (distribute_reward mgr0 "w" 100 (1/10) 3).1.block_height
        = mgr0.block_height + 1 ∧
     (distribute_reward mgr0 "w" 100 (1/10) 3).1.current_difficulty = 100 ∧
     (distribute_reward mgr0 "w" 100 (1/10) 3).1.last_block_hash
        = new_block_hash 3 ∧
     ((distribute_reward mgr0 "w" 100 (1/10) 3).1.last_block_hash).length = 66 ∧
     (∀ c ∈ hexDigitsFixed 64 3, isLowerHexDigit c = true) ∧
     (distribute_reward mgr0 "w" 100 (1/10) 3).1.api_key = mgr0.api_key ∧
     (distribute_reward mgr0 "w" 100 (1/10) 3).1.is_running = mgr0.is_running ∧
     (distribute_reward mgr0 "w" 100 (1/10) 3).1.peer_count = mgr0.peer_count ∧
     (distribute_reward mgr0 "w" 100 (1/10) 3).1.wallet_address = mgr0.wallet_address ∧
     (distribute_reward mgr0 "w" 100 (1/10) 3).1.node_id = mgr0.node_id) :=
  ⟨by norm_num, claim_C1_reward_allocation mgr0 "w" 100 (1/10) 3 (by norm_num)⟩

/-- A cycle whose race event is a consensus-first completion leaves block
height, current difficulty and balance unchanged: the race returns None,
the guard at line 49 is falsy, and the loss branch only logs. -/
theorem loss_cycle_fields (s : SysState) (env : CycleEnv)
    (h : env.raceEvent = RaceEvent.p2pFirst) :
    (run_cycle s env).1.mgr.block_height = s.mgr.block_height ∧
    (run_cycle s env).1.mgr.current_difficulty = s.mgr.current_difficulty ∧
    (run_cycle s env).1.mgr.balance = s.mgr.balance := by
  simp [run_cycle, h, race_result_p2pFirst, pyTruthy_none]

/-- Any number of consecutive consensus-first cycles leaves block height,
current difficulty and balance unchanged. -/
theorem loss_engine_fields (envs : List CycleEnv)
    (hall : ∀ e ∈ envs, e.raceEvent = RaceEvent.p2pFirst) :
    ∀ s : SysState,
      (run_engine s envs).1.mgr.block_height = s.mgr.block_height ∧
      (run_engine s envs).1.mgr.current_difficulty = s.mgr.current_difficulty ∧
      (run_engine s envs).1.mgr.balance = s.mgr.balance := by
  induction envs with
  | nil => intro s; exact ⟨rfl, rfl, rfl⟩
  | cons env rest ih =>
      intro s
      have henv : env.raceEvent = RaceEvent.p2pFirst := hall env (by simp)
      have hrest : ∀ e ∈ rest, e.raceEvent = RaceEvent.p2pFirst := by
        intro e he; exact hall e (by simp [he])
      by_cases hr : s.running
      · have hcyc := loss_cycle_fields s env henv
        have htail := ih hrest (run_cycle s env).1
        simp only [run_engine, hr, if_true]
        exact ⟨htail.1.trans hcyc.1, htail.2.1.trans hcyc.2.1,
          htail.2.2.trans hcyc.2.2⟩
      · simp [run_engine, hr]

/-- Claim C6: a cycle whose race resolves as a loss changes none of block
height, current difficulty and balance, and over any number of consecutive
losing cycles those fields keep their initial values. -/
theorem claim_C6_loss_frame (s : SysState) (env : CycleEnv) (envs : List CycleEnv)
    (h : env.raceEvent = RaceEvent.p2pFirst)
    (hall : ∀ e ∈ envs, e.raceEvent = RaceEvent.p2pFirst) :
    ((run_cycle s env).1.mgr.block_height = s.mgr.block_height ∧
     (run_cycle s env).1.mgr.current_difficulty = s.mgr.current_difficulty ∧
     (run_cycle s env).1.mgr.balance = s.mgr.balance) ∧
    ((run_engine s envs).1.mgr.block_height = s.mgr.block_height ∧
     (run_engine s envs).1.mgr.current_difficulty = s.mgr.current_difficulty ∧
     (run_engine s envs).1.mgr.balance = s.mgr.balance) :=
  ⟨loss_cycle_fields s env h, loss_engine_fields envs hall s⟩

/-- Witness for claim C6 on one losing cycle and a three-cycle losing run
from the initial state. -/
theorem claim_C6_witness :
    (envLoss.raceEvent = RaceEvent.p2pFirst ∧
     (∀ e ∈ [envLoss, envLoss, envLoss], e.raceEvent = RaceEvent.p2pFirst)) ∧
    (((run_cycle sys0 envLoss).1.mgr.block_height = sys0.mgr.block_height ∧
      (run_cycle sys0 envLoss).1.mgr.current_difficulty = sys0.mgr.current_difficulty ∧
      (run_cycle sys0 envLoss).1.mgr.balance = sys0.mgr.balance) ∧
     ((run_engine sys0 [envLoss, envLoss, envLoss]).1.mgr.block_height = sys0.mgr.block_height ∧
      (run_engine sys0 [envLoss, envLoss, envLoss]).1.mgr.current_difficulty
          = sys0.mgr.current_difficulty ∧
      (run_engine sys0 [envLoss, envLoss, envLoss]).1.mgr.balance = sys0.mgr.balance)) :=
  ⟨⟨rfl, by decide⟩,
   claim_C6_loss_frame sys0 envLoss [envLoss, envLoss, envLoss] rfl (by decide)⟩

/-- Claim C3 (code bug, evaluated at the failing inputs): whichever of the
two operations completes first, and even when both are complete, the race
returns the Python value None rather than a win proof or the loss marker:
the done set of asyncio.wait holds the implicitly created wrapper tasks,
so the membership tests on the original coroutine objects at lines 82 and
88 are always false and the function falls off its end.  Only an external
cancellation produces a value, the empty string. -/
theorem claim_C3_outcome_mapping_broken :
    (run_ai_competition RaceEvent.localFirst 77).result = none ∧
    (run_ai_competition RaceEvent.bothFirst 77).result = none ∧
    (run_ai_competition RaceEvent.p2pFirst 77).result = none ∧
    (run_ai_competition RaceEvent.externalCancel 77).result = some "" ∧
    solve_block_encryption 77 = "AI_Solution_Proof_4D" := by
  exact ⟨rfl, rfl, rfl, rfl, rfl⟩

/-- Counterexample to claim C4 as stated: after the consensus operation
completes first, the still-running local solve operation is not cancelled;
the function requests cancellation of nothing (the pending set of
asyncio.wait is discarded and no cancel call appears in the source). -/
theorem claim_C4_counterexample :
    (run_ai_competition RaceEvent.p2pFirst 0).cancel_requested = [] ∧
    PyAwaitable.solveCoro ∉ (run_ai_competition RaceEvent.p2pFirst 0).cancel_requested ∧
    PyAwaitable.wrapperTask PyAwaitable.solveCoro ∉
      (run_ai_competition RaceEvent.p2pFirst 0).cancel_requested := by
  exact ⟨rfl, by decide, by decide⟩

/-- Claim C4 as amended: both operations are handed together to a single
first-completed wait (started at the same logical instant, blocking until
the first completes), but cancellation of the still-running loser is never
requested; the loser simply keeps running unobserved. -/
theorem claim_C4_amended_race_contract (ev : RaceEvent) (bits : ℕ) :
    (run_ai_competition ev bits).waited_on = [PyAwaitable.solveCoro, PyAwaitable.p2pCoro] ∧
    (run_ai_competition ev bits).first_completed = true ∧
    (run_ai_competition ev bits).cancel_requested = [] :=
  ⟨rfl, rfl, rfl⟩

/-- Counterexample to claim C5 as stated: a cycle whose race is cancelled
by an external stop still reaches the inter-block sleep at line 58 (the
CancelledError is swallowed inside the race at lines 92-94, so start_engine
proceeds through the loss branch and the sleep before its loop guard is
re-examined). -/
theorem claim_C5_counterexample :
    LogEvent.competitionCancelled ∈ (run_cycle sys0 envCancel).2.1 ∧
    CycleAction.interBlockSleep ∈ (run_cycle sys0 envCancel).2.2 := by
  decide

/-- Claim C5 as amended: on an externally cancelled race the cycle emits
the cancellation notification, allocates no reward, performs the
inter-block sleep, and afterwards no further cycle starts, because the
stop request already cleared the running flag observed by the loop
guard. -/
theorem claim_C5_amended_abort_behavior (s : SysState) (env : CycleEnv)
    (envs : List CycleEnv) (h : env.raceEvent = RaceEvent.externalCancel) :
    LogEvent.competitionCancelled ∈ (run_cycle s env).2.1 ∧
    (run_cycle s env).2.2
        = [CycleAction.race RaceEvent.externalCancel, CycleAction.interBlockSleep] ∧
    (run_cycle s env).1.running = false ∧
    run_engine (run_cycle s env).1 envs = ((run_cycle s env).1, [], []) := by
  have hrun : (run_cycle s env).1.running = false := by
    simp [run_cycle, h, race_on_cancel, pyTruthy_some_empty]
  refine ⟨?_, ?_, hrun, ?_⟩
  · simp [run_cycle, h, race_on_cancel, pyTruthy_some_empty, run_ai_competition]
  · simp [run_cycle, h, race_on_cancel, pyTruthy_some_empty, run_ai_competition]
  · cases envs with
    | nil => rfl
    | cons e rest => simp [run_engine, hrun]

/-- Witness for the amended claim C5 at the concrete cancelled cycle. -/
theorem claim_C5_witness :
    (envCancel.raceEvent = RaceEvent.externalCancel) ∧
    (LogEvent.competitionCancelled ∈ (run_cycle sys0 envCancel).2.1 ∧
     (run_cycle sys0 envCancel).2.2
        = [CycleAction.race RaceEvent.externalCancel, CycleAction.interBlockSleep] ∧
     (run_cycle sys0 envCancel).1.running = false ∧
     run_engine (run_cycle sys0 envCancel).1 [envLoss]
        = ((run_cycle sys0 envCancel).1, [], [])) :=
  ⟨rfl, claim_C5_amended_abort_behavior sys0 envCancel [envLoss] rfl⟩

/-- Claim C8 (code bug, evaluated at the failing inputs): an exception
raised inside either competing operation is stored in the implicitly
created wrapper task of that operation; asyncio.wait returns normally, the
except-clause at lines 95-97 never runs, nothing is logged through the
event sink, and the race falls off its end returning None (which the
scheduler then handles like a loss, so the loop does continue). -/
theorem claim_C8_op_error_swallowed_unlogged :
    ((run_ai_competition (RaceEvent.opError true "boom") 0).logs = [] ∧
     (run_ai_competition (RaceEvent.opError true "boom") 0).result = none) ∧
    ((run_ai_competition (RaceEvent.opError false "boom") 0).logs = [] ∧
     (run_ai_competition (RaceEvent.opError false "boom") 0).result = none) ∧
    (run_ai_competition (RaceEvent.waitError "TypeError") 0).logs
        = [LogEvent.competitionError "TypeError"] ∧
    (run_ai_competition (RaceEvent.waitError "TypeError") 0).result = some "" := by
  exact ⟨⟨rfl, rfl⟩, ⟨rfl, rfl⟩, rfl, rfl⟩

/-- Claim C10 (code bug, evaluated at the failing input): the local solve
operation does return a non-empty string with the prefix
AI_Solution_Proof_, but on a consensus-first completion the race returns
None, not the empty string, because the loss branch at lines 88-90 is
unreachable (its membership test compares the coroutine object against the
wrapper task in the done set); consequently the reward branch of the
scheduler is not taken in this cycle. -/
theorem claim_C10_win_gate_encoding :
    (∃ t, solve_block_encryption 5 = "AI_Solution_Proof_" ++ t) ∧
    (solve_block_encryption 5).length ≠ 0 ∧
    (run_ai_competition RaceEvent.p2pFirst 5).result = none ∧
    (run_ai_competition RaceEvent.p2pFirst 5).result ≠ some "" ∧
    (run_cycle sys0 envLoss).2.2
        = [CycleAction.race RaceEvent.p2pFirst, CycleAction.interBlockSleep] := by
  exact ⟨⟨pyFormatUpperHex 5, rfl⟩, by decide, rfl, by decide, by decide⟩

end PoAIA
